import Mathlib

/-!
Verification of the ai_assistant backend against its specification.

The development shallowly embeds the parts of the code base that the
specification's testable properties talk about:

* `app/core/middleware/global_.py` — `TraceLogger` (request-scoped,
  severity-filtered logging) and `LoggingMiddleware.dispatch` (the HTTP
  interception layer);
* `app/crud/base.py` — `CRUDBase.get_multi`, `CRUDBase.get_multi_or_404`
  and `CRUDBase.create` (the generic repository);
* `app/services/llm.py` — `ask_llm` (the LLM gateway).

Python exceptions are modelled as `Option`/`Except` values, the database
session as an explicit record with an event trace, and external calls
(the completion API, UTF-8 decoding of request bodies) as oracle
parameters supplied to the embedded functions.
-/

/-- Log severity enumeration of `app/core/enums.py` (`LogLevel`): the four
members DEBUG, INFO, WARNING, ERROR of the Python `str` enum. -/
inductive LogLevel where
  | DEBUG
  | INFO
  | WARNING
  | ERROR
deriving DecidableEq

/-- One log line as emitted by `TraceLogger`: the severity-specific sink
(`debug_logger` / `info_logger` / `error_logger`) it went to, and its text. -/
structure LogLine where
  sink : LogLevel
  text : String
deriving DecidableEq

/-- State of `TraceLogger` (`global_.py`, lines 42-52): the per-request
identifier and the minimal severity threshold. -/
structure TraceLogger where
  request_id : String
  level : LogLevel
deriving DecidableEq

/-- The dictionary `level_priority` built inside `TraceLogger._should_log`
(lines 72-76).  It has entries for DEBUG, INFO and ERROR only; looking up
WARNING raises `KeyError` in Python, modelled by `none`. -/
def levelPriority : LogLevel → Option Nat
  | LogLevel.DEBUG => some 10
  | LogLevel.INFO => some 20
  | LogLevel.ERROR => some 30
  | LogLevel.WARNING => none

/-- Embedding of `TraceLogger._should_log` (lines 54-77).  The source
evaluates `level_priority[message_level]` first and then
`level_priority[self.level]`; either lookup can raise `KeyError` (`none`). -/
def TraceLogger.should_log (tl : TraceLogger) (message_level : LogLevel) :
    Option Bool := do
  let mp ← levelPriority message_level
  let sp ← levelPriority tl.level
  pure (mp ≥ sp)

/-- Embedding of `TraceLogger._create_string` (lines 121-135). -/
def TraceLogger.create_string (tl : TraceLogger) (s : String) : String :=
  "[request_id=" ++ tl.request_id ++ "] " ++ s

/-- Embedding of `TraceLogger.debug` (lines 79-91): the list of lines the
call emits (empty when filtered out), or `none` when `_should_log` raises. -/
def TraceLogger.debug (tl : TraceLogger) (s : String) : Option (List LogLine) := do
  let b ← tl.should_log LogLevel.DEBUG
  pure (if b then [⟨LogLevel.DEBUG, tl.create_string s⟩] else [])

/-- Embedding of `TraceLogger.info` (lines 93-105). -/
def TraceLogger.info (tl : TraceLogger) (s : String) : Option (List LogLine) := do
  let b ← tl.should_log LogLevel.INFO
  pure (if b then [⟨LogLevel.INFO, tl.create_string s⟩] else [])

/-- Embedding of `TraceLogger.error` (lines 107-119). -/
def TraceLogger.error (tl : TraceLogger) (s : String) : Option (List LogLine) := do
  let b ← tl.should_log LogLevel.ERROR
  pure (if b then [⟨LogLevel.ERROR, tl.create_string s⟩] else [])

/-- Whether a logging call emitted at least one line (it returned normally
and was not filtered out by the threshold). -/
def emitted (r : Option (List LogLine)) : Bool :=
  !(r.getD []).isEmpty

/-- Severity ranking used by the claim wording: the standard Python
`logging` ordering DEBUG < INFO < WARNING < ERROR of the enum's members
(the claim orders debug < info < error and WARNING sits between INFO and
ERROR).  This is the spec-side ordering, not the code's partial table. -/
def specLevelRank : LogLevel → Nat
  | LogLevel.DEBUG => 10
  | LogLevel.INFO => 20
  | LogLevel.WARNING => 30
  | LogLevel.ERROR => 40

/-- Text `t` begins with the prefix `p`. -/
def beginsWith (t p : String) : Prop := ∃ rest, t = p ++ rest

/-- Body of an HTTP response produced by the middleware: either the drained
bytes of the inner handler response (re-emitted by `__general_response`), or
a JSON document of the shape produced by `JSONResponse(content=...)`, whose
content is the dictionary with single key `detail` and the given value. -/
inductive RespBody where
  | raw (bytes : List Nat)
  | jsonDetail (detail : String)
deriving DecidableEq

/-- HTTP response as produced by `LoggingMiddleware.dispatch`. -/
structure HttpResponse where
  status_code : Nat
  body : RespBody
deriving DecidableEq

/-- A Python exception as observed by `dispatch`'s two `except` clauses:
whether it is a `fastapi.HTTPException` instance (then `status_code` and
`detail` are its attributes) and its `str(e)` text. -/
structure PyExn where
  isHTTP : Bool
  status_code : Nat
  detail : String
  text : String
deriving DecidableEq

/-- Outcome of `call_next(request)` as observed inside
`LoggingMiddleware.__general_response`: either a streamed response with a
status code and (to-be-drained) body bytes, or a raised exception. -/
inductive InnerOutcome where
  | ok (status_code : Nat) (respBody : List Nat)
  | raise (e : PyExn)
deriving DecidableEq

/-- Placeholder that `dispatch` logs when the request body cannot be decoded
as UTF-8 (`global_.py` line 285). -/
def bodyPlaceholder : String :=
  "Request body: \x7b\n  \x27body\x27: Объект в base64\n\x7d"

/-- Exception raised by `response_body.decode()` when the drained response
body is not valid UTF-8 (`UnicodeDecodeError`); it is not an HTTPException.
The model keeps the message abstract as a fixed text. -/
def decodeErrorExn : PyExn :=
  ⟨false, 0, "", "UnicodeDecodeError"⟩

/-- Embedding of the body-capture block of `dispatch` (lines 279-285): read
the body, try UTF-8 decoding (the `decode` oracle models `bytes.decode`),
log the decoded body or the placeholder, and produce `decoded_body`.
`none` models an uncaught `KeyError` from the logger. -/
def capture_body (tl : TraceLogger) (decode : List Nat → Option String)
    (body : List Nat) : Option (String × List LogLine) :=
  if body.isEmpty then some (("", []))
  else
    match decode body with
    | some s => do
        let l ← tl.info ("Request body: " ++ s)
        pure (s, l)
    | none => do
        let l ← tl.info bodyPlaceholder
        pure (("", l))

/-- Embedding of `LoggingMiddleware.__general_response` (lines 169-209):
run the inner handler, log completion and status, drain the body, log both
bodies at error severity for a non-200/201 status, and rebuild the
response.  A raised exception (from `call_next` or from
`response_body.decode()`) is returned as `Except.error` together with the
lines logged before it, to be classified by `dispatch`'s `except` clauses. -/
def general_response (tl : TraceLogger) (method url : String)
    (decode : List Nat → Option String) (body : String)
    (inner : InnerOutcome) :
    Option (List LogLine × Except PyExn HttpResponse) :=
  match inner with
  | InnerOutcome.raise e => some (([], Except.error e))
  | InnerOutcome.ok status respBody => do
      let l1 ← tl.info ("Request completed: " ++ method ++ " " ++ url)
      let l2 ← tl.info ("Status code: " ++ toString status)
      if status ≠ 200 ∧ status ≠ 201 then do
        let l3 ← tl.error ("Request body: " ++ body)
        match decode respBody with
        | some rb => do
            let l4 ← tl.error ("Response body: " ++ rb)
            pure (l1 ++ l2 ++ l3 ++ l4, Except.ok ⟨status, RespBody.raw respBody⟩)
        | none =>
            pure (l1 ++ l2 ++ l3, Except.error decodeErrorExn)
      else
        pure (l1 ++ l2, Except.ok ⟨status, RespBody.raw respBody⟩)

/-- Embedding of `LoggingMiddleware.__handle_http_exception`
(lines 211-228): log the detail and a traceback, answer with the
exception's status code and a `{"detail": ...}` body. -/
def handle_http_exception (tl : TraceLogger) (e : PyExn) :
    Option (List LogLine × HttpResponse) := do
  let l1 ← tl.error ("HTTPException occurred: " ++ e.detail)
  let l2 ← tl.error ("Traceback: " ++ e.text)
  pure (l1 ++ l2, ⟨e.status_code, RespBody.jsonDetail e.detail⟩)

/-- Embedding of `LoggingMiddleware.__handle_general_exception`
(lines 230-255): log the exception, a traceback and the failing
method+URL, answer 500 with the fixed generic body. -/
def handle_general_exception (tl : TraceLogger) (method url : String)
    (e : PyExn) : Option (List LogLine × HttpResponse) := do
  let l1 ← tl.error ("Exception occurred: " ++ e.text)
  let l2 ← tl.error ("Traceback: " ++ e.text)
  let l3 ← tl.error ("Request failed: " ++ method ++ " " ++ url)
  pure (l1 ++ l2 ++ l3, ⟨500, RespBody.jsonDetail ("Internal Server Error")⟩)

/-- Embedding of `LoggingMiddleware.dispatch` (lines 257-306).  `level` is
`settings.app.LOG_LEVEL`, `decode` the UTF-8 decoding oracle, `inner` the
behaviour of `call_next`, `elapsed` the wall-clock text of the `finally`
block.  The result is the emitted log lines and the response; `none` models
the uncaught `KeyError` a WARNING threshold provokes in `TraceLogger`. -/
def dispatch (level : LogLevel) (request_id method url : String)
    (decode : List Nat → Option String) (reqBody : List Nat)
    (inner : InnerOutcome) (elapsed : String) :
    Option (List LogLine × HttpResponse) := do
  let tl : TraceLogger := ⟨request_id, level⟩
  let l1 ← tl.info ("Incoming request: " ++ method ++ " " ++ url)
  let (decoded_body, l2) ← capture_body tl decode reqBody
  let (l3, outcome) ← general_response tl method url decode decoded_body inner
  let (l4, resp) ←
    match outcome with
    | Except.ok resp => some (([], resp))
    | Except.error e =>
        if e.isHTTP then handle_http_exception tl e
        else handle_general_exception tl method url e
  let lf ← tl.info ("Process time: " ++ elapsed ++ " seconds")
  pure (l1 ++ l2 ++ l3 ++ l4 ++ lf, resp)

/-- Database row for the generic repository (`app/crud/base.py`).
`CRUDBase` is generic over the SQLAlchemy model; a row is embedded as an
association list from column names to values of an arbitrary decidably
linearly ordered value type `V` (needed for `ORDER BY` and `filter_by`
equality). -/
abbrev Row (V : Type) := List (String × V)

/-- Attribute access on a row: the value of column `f`. -/
def Row.get {V : Type} (r : Row V) (f : String) : Option V :=
  List.lookup f r

/-- The `WHERE` predicate built by `select(...).filter_by(**filter_by)`
(`base.py` line 87): a conjunction of exact matches field = value. -/
def matches_filters {V : Type} [DecidableEq V]
    (filters : List (String × V)) (r : Row V) : Bool :=
  filters.all (fun p => decide (Row.get r p.1 = some p.2))

/-- Three-way comparison on values, from the linear order. -/
def cmpV {V : Type} [LinearOrder V] (a b : V) : Ordering :=
  if a < b then Ordering.lt else if a = b then Ordering.eq else Ordering.gt

/-- Three-way comparison on optional values (SQL NULLs sort first here;
rows of one model always carry their columns, so this choice is inert). -/
def cmpOpt {V : Type} [LinearOrder V] (a b : Option V) : Ordering :=
  match a, b with
  | none, none => Ordering.eq
  | none, some _ => Ordering.lt
  | some _, none => Ordering.gt
  | some x, some y => cmpV x y

/-- Comparison along one `ORDER BY` key; `desc = true` models `.desc()`. -/
def keyCmp {V : Type} [LinearOrder V] (desc : Bool) (a b : Option V) :
    Ordering :=
  if desc then (cmpOpt a b).swap else cmpOpt a b

/-- Lexicographic comparison along the `ORDER BY` sequence (first listed
column is the primary sort key, as in `query.order_by(*order_by)`). -/
def rowCmp {V : Type} [LinearOrder V] (ordering : List (String × Bool))
    (r1 r2 : Row V) : Ordering :=
  match ordering with
  | [] => Ordering.eq
  | (f, desc) :: rest =>
    match keyCmp desc (Row.get r1 f) (Row.get r2 f) with
    | Ordering.eq => rowCmp rest r1 r2
    | c => c

/-- The `≤` relation induced by `rowCmp`, used to sort. -/
def rowLe {V : Type} [LinearOrder V] (ordering : List (String × Bool))
    (r1 r2 : Row V) : Bool :=
  decide (rowCmp ordering r1 r2 ≠ Ordering.gt)

/-- The SQL statement `CRUDBase.get_multi` assembles in `base.py`
lines 87-96: a select over the model with exact-match filters, an optional
ordering, an optional offset and an optional limit. -/
structure Query (V : Type) where
  filters : List (String × V)
  ordering : List (String × Bool)
  off : Option Nat
  lim : Option Nat

/-- Statement construction of `get_multi` (lines 87-96), step by step:
`filter_by`, then `if order_by:` (Python truthiness: `None` and the empty
tuple both skip), then `if offset is not None:`, then
`if limit is not None:`. -/
def buildQuery {V : Type} (order_by : Option (List (String × Bool)))
    (limit offset : Option Nat) (filter_by : List (String × V)) : Query V :=
  let q : Query V := ⟨filter_by, [], none, none⟩
  let q := match order_by with
    | some ob => if ob.isEmpty then q else { q with ordering := ob }
    | none => q
  let q := match offset with
    | some o => { q with off := some o }
    | none => q
  let q := match limit with
    | some l => { q with lim := some l }
    | none => q
  q

/-- Relational semantics of executing the assembled statement against table
contents `db`: filter, then sort (stable; SQL leaves base order unspecified
without `ORDER BY`, the model keeps insertion order), then `OFFSET`, then
`LIMIT`. -/
def execQuery {V : Type} [LinearOrder V] (db : List (Row V)) (q : Query V) :
    List (Row V) :=
  let rows := db.filter (matches_filters q.filters)
  let rows := if q.ordering.isEmpty then rows
    else rows.mergeSort (rowLe q.ordering)
  let rows := rows.drop (q.off.getD 0)
  match q.lim with
  | some l => rows.take l
  | none => rows

/-- Embedding of `CRUDBase.get_multi` (`base.py` lines 32-99): build the
statement and execute it (`.scalars().unique().all()` deduplicates by
object identity, a no-op for single-model selects). -/
def get_multi {V : Type} [LinearOrder V] (db : List (Row V))
    (order_by : Option (List (String × Bool))) (limit offset : Option Nat)
    (filter_by : List (String × V)) : List (Row V) :=
  execQuery db (buildQuery order_by limit offset filter_by)

/-- Spec-side description of `list`, written from the claim's words: the
rows matching every filter, sorted by the ordering fields in the given
sequence, starting at `offset`, with at most `limit` entries.  Used to
state the refinement in C8. -/
def claimedRows {V : Type} [LinearOrder V] (db : List (Row V))
    (order_by : Option (List (String × Bool))) (limit offset : Option Nat)
    (filter_by : List (String × V)) : List (Row V) :=
  let ms := db.filter (matches_filters filter_by)
  let sorted := match order_by with
    | some o => if o.isEmpty then ms else ms.mergeSort (rowLe o)
    | none => ms
  let paged := sorted.drop (offset.getD 0)
  match limit with
  | some l => paged.take l
  | none => paged

/-- HTTP exception raised by `get_multi_or_404` (`HTTPStatus.NOT_FOUND`
with a string detail). -/
structure HTTPException where
  status_code : Nat
  detail : String
deriving DecidableEq

/-- Auto-generated not-found message of `get_multi_or_404`
(`base.py` lines 158-163), naming the model and the filters applied. -/
def notFoundDetail {V : Type} [ToString V] (modelName : String)
    (filter_by : List (String × V)) : String :=
  if filter_by.isEmpty then "No " ++ modelName ++ " found"
  else
    "No " ++ modelName ++ " found with " ++
      String.intercalate (", ")
        (filter_by.map (fun p => p.1 ++ "=" ++ toString p.2))

/-- Embedding of `CRUDBase.get_multi_or_404` (`base.py` lines 101-170).
`custom_detail` models the `_detail` keyword argument; the source tests it
with Python truthiness (`if _detail:`), so an empty string falls back to
the auto-generated message. -/
def get_multi_or_404 {V : Type} [LinearOrder V] [ToString V]
    (modelName : String) (db : List (Row V))
    (order_by : Option (List (String × Bool))) (limit offset : Option Nat)
    (custom_detail : Option String) (filter_by : List (String × V)) :
    Except HTTPException (List (Row V)) :=
  let db_objs := get_multi db order_by limit offset filter_by
  if db_objs.isEmpty then
    let error_detail := match custom_detail with
      | some d => if d.isEmpty then notFoundDetail modelName filter_by else d
      | none => notFoundDetail modelName filter_by
    Except.error ⟨404, error_detail⟩
  else Except.ok db_objs

/-- Sample UTF-8 decoding oracle for concrete evaluations: byte sequences
containing 255 (never valid in UTF-8) are undecodable, anything else is
taken to decode to a fixed text. -/
def sampleDecode : List Nat → Option String :=
  fun b => if 255 ∈ b then none else some ("ok")

/-- Input schema `MsgSchema` of `app/schemas/llm.py`: the message text and
the question flag. -/
structure MsgSchema where
  message : String
  question : Bool
deriving DecidableEq

/-- Row of the `msg` table (`app/models/msg.py`): surrogate `id` (none
until the flush assigns it), text, creation timestamp (none until the
flush applies the `datetime.now` default), question flag and owner. -/
structure MsgRow where
  id : Option Nat
  message : String
  date : Option Nat
  question : Bool
  user_id : Option Nat
deriving DecidableEq

/-- Events observed on the database session: a flushed INSERT, or a COMMIT. -/
inductive DBEvent where
  | write (row : MsgRow)
  | commit
deriving DecidableEq

/-- The SQLAlchemy `AsyncSession`, abstracted: current table contents, the
ordered trace of persistence events, the id sequence, the clock value the
`datetime.now` default yields, and the number of commits issued. -/
structure Session where
  rows : List MsgRow
  events : List DBEvent
  next_id : Nat
  now : Nat
  commits : Nat
deriving DecidableEq

/-- Effect of `await async_session.commit()`. -/
def Session.do_commit (s : Session) : Session :=
  { s with commits := s.commits + 1, events := s.events ++ [DBEvent.commit] }

/-- Embedding of `CRUDBase.create` (`base.py` lines 172-196) at the `Msg`
model (the repository instantiates `CRUDBase[Msg]` in `app/crud/msg.py`):
`model_dump` the schema, attach `user_id` when given, construct the model
object, `add` it, `flush` (the INSERT is staged: the id sequence fires and
the column defaults are applied) and `refresh`; no commit is issued. -/
def create (s : Session) (obj_in : MsgSchema) (user_id : Option Nat) :
    MsgRow × Session :=
  let db_obj : MsgRow :=
    { id := some s.next_id, message := obj_in.message, date := some s.now,
      question := obj_in.question, user_id := user_id }
  (db_obj,
    { s with rows := s.rows ++ [db_obj],
             events := s.events ++ [DBEvent.write db_obj],
             next_id := s.next_id + 1 })

/-- A Python exception raised inside `ask_llm`'s `try` block: its optional
`status_code` attribute (read by `getattr(e, 'status_code', 500)`) and its
`str(e)` text. -/
structure PyError where
  status_code : Option Nat
  text : String
deriving DecidableEq

/-- The `HTTPException` `ask_llm` raises: the status code and the
`message` field of its detail dictionary `{"message": str(e)}`. -/
structure LLMHttpError where
  status_code : Nat
  detail_message : String
deriving DecidableEq

/-- The `except` clause of `ask_llm` (`llm.py` lines 61-68). -/
def toHttpError (e : PyError) : LLMHttpError :=
  ⟨e.status_code.getD 500, e.text⟩

/-- The canned mock-mode answer (`llm.py` line 36). -/
def mockAnswer : String := "Это тестовый ответ, так как включен Mock-режим"

/-- Result of one `ask_llm` call: the returned `LLMResponse` message or
the raised `HTTPException`, the session state afterwards, and the
simulated latency slept, in seconds. -/
structure AskResult where
  outcome : Except LLMHttpError String
  session : Session
  slept : Rat

/-- Embedding of `ask_llm` (`app/services/llm.py` lines 13-68).
`mock_mode` is the query flag, `api_key` is `settings.openrouter.key`,
`question` the raw question text, `user_id` the authenticated user's id.
External effects are oracles: `api_response` is the outcome of
`client.chat.completions.create` (the answer text on success), and
`write_q_fails` / `write_a_fails` inject an exception into the first /
second `msg_crud.create` call (`none` = that write succeeds). -/
def ask_llm (mock_mode : Bool) (api_key : Option String) (question : String)
    (user_id : Nat) (s : Session) (api_response : Except PyError String)
    (write_q_fails write_a_fails : Option PyError) : AskResult :=
  if mock_mode || api_key.isNone then
    ⟨Except.ok mockAnswer, s, 3 / 2⟩
  else
    match write_q_fails with
    | some e => ⟨Except.error (toHttpError e), s, 0⟩
    | none =>
      let qs := create s ⟨question, true⟩ (some user_id)
      match api_response with
      | Except.error e => ⟨Except.error (toHttpError e), qs.2, 0⟩
      | Except.ok answer =>
        match write_a_fails with
        | some e => ⟨Except.error (toHttpError e), qs.2, 0⟩
        | none =>
          let ans_state := create qs.2 ⟨answer, false⟩ (some user_id)
          ⟨Except.ok answer, ans_state.2.do_commit, 0⟩

theorem TraceLogger.debug_eq (rid s : String) (lvl : LogLevel)
    (h : lvl ≠ LogLevel.WARNING) :
    (TraceLogger.mk rid lvl).debug s =
      some (if lvl = LogLevel.DEBUG
            then [⟨LogLevel.DEBUG, (TraceLogger.mk rid lvl).create_string s⟩]
            else []) := by
  cases lvl <;> first | rfl | exact absurd rfl h

theorem TraceLogger.info_eq (rid s : String) (lvl : LogLevel)
    (h : lvl ≠ LogLevel.WARNING) :
    (TraceLogger.mk rid lvl).info s =
      some (if lvl = LogLevel.ERROR
            then []
            else [⟨LogLevel.INFO, (TraceLogger.mk rid lvl).create_string s⟩]) := by
  cases lvl <;> first | rfl | exact absurd rfl h

theorem TraceLogger.error_eq (rid s : String) (lvl : LogLevel)
    (h : lvl ≠ LogLevel.WARNING) :
    (TraceLogger.mk rid lvl).error s =
      some [⟨LogLevel.ERROR, (TraceLogger.mk rid lvl).create_string s⟩] := by
  cases lvl <;> first | rfl | exact absurd rfl h

theorem mem_of_log_call {tl : TraceLogger} {s : String} {lines : List LogLine}
    {line : LogLine}
    (hw : tl.level ≠ LogLevel.WARNING)
    (h : tl.debug s = some lines ∨ tl.info s = some lines ∨ tl.error s = some lines)
    (hm : line ∈ lines) : line.text = tl.create_string s := by
  obtain ⟨rid, lvl⟩ := tl
  cases lvl <;>
    [skip; skip; exact absurd rfl hw; skip] <;>
    rcases h with h | h | h <;>
    simp only [TraceLogger.debug, TraceLogger.info, TraceLogger.error,
      TraceLogger.should_log, levelPriority, Option.bind_eq_bind,
      Option.some_bind, Option.pure_def, Option.some.injEq] at h <;>
    subst h <;>
    simp at hm <;>
    subst hm <;>
    rfl

/-- C10: the log-level enum admits WARNING, but `_should_log`'s priority
table maps only DEBUG, INFO and ERROR, so every `TraceLogger` built with
threshold WARNING raises `KeyError` (modelled `none`) on every `debug`,
`info` or `error` call instead of filtering the message. -/
theorem C10_warning_threshold_raises (rid : String) (s : String) :
    (TraceLogger.mk rid LogLevel.WARNING).debug s = none ∧
    (TraceLogger.mk rid LogLevel.WARNING).info s = none ∧
    (TraceLogger.mk rid LogLevel.WARNING).error s = none := by
  refine ⟨rfl, rfl, rfl⟩

/-- C6 counterexample: with configured threshold WARNING (a valid value of
the log-level enum) a message at severity ERROR satisfies S ≥ threshold,
yet the code emits nothing (the call raises `KeyError`, modelled `none`),
so the claimed "emitted iff S ≥ threshold" equivalence fails. -/
theorem C6_counterexample :
    specLevelRank LogLevel.ERROR ≥ specLevelRank LogLevel.WARNING ∧
    (TraceLogger.mk ("r1") LogLevel.WARNING).error ("boom") = none ∧
    emitted ((TraceLogger.mk ("r1") LogLevel.WARNING).error ("boom")) = false := by
  refine ⟨by decide, rfl, rfl⟩

/-- C6 (amended): for every threshold the priority table defines (DEBUG,
INFO or ERROR — WARNING excluded, see the counterexample), a message at
severity S is emitted iff S ≥ the threshold in the severity ordering, and
every emitted line begins with the prefix `[request_id=<id>] `. -/
theorem C6_emission_iff_rank (tl : TraceLogger)
    (h : tl.level ≠ LogLevel.WARNING) (s : String) :
    ((emitted (tl.debug s) = true) ↔
      specLevelRank LogLevel.DEBUG ≥ specLevelRank tl.level) ∧
    ((emitted (tl.info s) = true) ↔
      specLevelRank LogLevel.INFO ≥ specLevelRank tl.level) ∧
    ((emitted (tl.error s) = true) ↔
      specLevelRank LogLevel.ERROR ≥ specLevelRank tl.level) ∧
    (∀ lines : List LogLine,
      (tl.debug s = some lines ∨ tl.info s = some lines ∨ tl.error s = some lines) →
      ∀ line ∈ lines,
        beginsWith line.text ("[request_id=" ++ tl.request_id ++ "] ")) := by
  refine ⟨?_, ?_, ?_, fun lines hl line hline => ⟨s, mem_of_log_call h hl hline⟩⟩ <;>
    obtain ⟨rid, lvl⟩ := tl <;>
    cases lvl <;>
    first
      | exact absurd rfl h
      | simp [emitted, TraceLogger.debug, TraceLogger.info, TraceLogger.error,
          TraceLogger.should_log, levelPriority, specLevelRank]

/-- Witness for C6: at threshold INFO, an info message is emitted, a debug
message is not, and the emitted line carries the request-id prefix. -/
theorem C6_witness :
    ((emitted ((TraceLogger.mk ("r2") LogLevel.INFO).debug ("hi")) = true) ↔
      specLevelRank LogLevel.DEBUG ≥ specLevelRank LogLevel.INFO) ∧
    ((emitted ((TraceLogger.mk ("r2") LogLevel.INFO).info ("hi")) = true) ↔
      specLevelRank LogLevel.INFO ≥ specLevelRank LogLevel.INFO) ∧
    ((emitted ((TraceLogger.mk ("r2") LogLevel.INFO).error ("hi")) = true) ↔
      specLevelRank LogLevel.ERROR ≥ specLevelRank LogLevel.INFO) ∧
    (∀ lines : List LogLine,
      ((TraceLogger.mk ("r2") LogLevel.INFO).debug ("hi") = some lines ∨
       (TraceLogger.mk ("r2") LogLevel.INFO).info ("hi") = some lines ∨
       (TraceLogger.mk ("r2") LogLevel.INFO).error ("hi") = some lines) →
      ∀ line ∈ lines,
        beginsWith line.text ("[request_id=" ++ ("r2") ++ "] ")) :=
  C6_emission_iff_rank (TraceLogger.mk ("r2") LogLevel.INFO) (by decide) ("hi")

/-- C4 counterexample: the log threshold is read from configuration and the
enum admits WARNING; with threshold WARNING the very first logging call of
`dispatch` raises `KeyError` (before the `try` block), so the request does
not resolve to any HTTP response — here concretely for a request whose
handler would have answered 200. -/
theorem C4_counterexample :
    dispatch LogLevel.WARNING ("r1") ("GET") ("/") (fun _ => none) []
      (InnerOutcome.ok 200 []) ("0.01") = none := rfl

/-- C4 (amended): provided the configured log threshold is one the
`TraceLogger` priority table defines (DEBUG, INFO or ERROR — WARNING
excluded, see the counterexample), every request resolves to some HTTP
response; an inner `HTTPException` yields that exception's status code with
a `detail` body echoing its detail (this branch has priority: it fires even
though such an exception also matches the generic clause), and any other
inner exception yields exactly status 500 with body `detail: Internal
Server Error`, independent of the exception's text. -/
theorem C4_dispatch_resolves (level : LogLevel) (rid method url : String)
    (decode : List Nat → Option String) (reqBody : List Nat)
    (inner : InnerOutcome) (elapsed : String)
    (h : level ≠ LogLevel.WARNING) :
    (dispatch level rid method url decode reqBody inner elapsed).isSome = true ∧
    (∀ e, inner = InnerOutcome.raise e → e.isHTTP = true →
      Option.map Prod.snd
          (dispatch level rid method url decode reqBody inner elapsed) =
        some ⟨e.status_code, RespBody.jsonDetail e.detail⟩) ∧
    (∀ e, inner = InnerOutcome.raise e → e.isHTTP = false →
      Option.map Prod.snd
          (dispatch level rid method url decode reqBody inner elapsed) =
        some ⟨500, RespBody.jsonDetail ("Internal Server Error")⟩) := by
  obtain ⟨dec, ls, hc⟩ :
      ∃ dec ls, capture_body ⟨rid, level⟩ decode reqBody = some (dec, ls) := by
    by_cases hb : reqBody.isEmpty
    · exact ⟨"", [], by simp [capture_body, hb]⟩
    · rcases hd : decode reqBody with _ | s <;>
        simp [capture_body, hb, hd, TraceLogger.info_eq rid _ _ h]
  refine ⟨?_, ?_, ?_⟩
  · cases inner with
    | raise e =>
        rcases he : e.isHTTP with _ | _ <;>
          simp [dispatch, hc, general_response, he, handle_http_exception,
            handle_general_exception, TraceLogger.info_eq rid _ _ h,
            TraceLogger.error_eq rid _ _ h]
    | ok status respBody =>
        by_cases hs : status ≠ 200 ∧ status ≠ 201
        · rcases hr : decode respBody with _ | rb <;>
            simp [dispatch, hc, general_response, hs, hr, decodeErrorExn,
              handle_http_exception, handle_general_exception,
              TraceLogger.info_eq rid _ _ h, TraceLogger.error_eq rid _ _ h]
        · simp [dispatch, hc, general_response, hs,
            TraceLogger.info_eq rid _ _ h, TraceLogger.error_eq rid _ _ h]
  · intro e he hh
    subst he
    simp [dispatch, hc, general_response, hh, handle_http_exception,
      TraceLogger.info_eq rid _ _ h, TraceLogger.error_eq rid _ _ h]
  · intro e he hh
    subst he
    simp [dispatch, hc, general_response, hh, handle_general_exception,
      TraceLogger.info_eq rid _ _ h, TraceLogger.error_eq rid _ _ h]

/-- Witness for C4: a concrete unhandled inner exception resolves to some
response, namely the generic 500 one. -/
theorem C4_witness :
    (dispatch LogLevel.INFO ("r3") ("POST") ("/llm/msg") (fun _ => none) []
      (InnerOutcome.raise ⟨false, 0, "", "boom"⟩) ("0.02")).isSome = true ∧
    (∀ e, InnerOutcome.raise (PyExn.mk false 0 ("") ("boom")) =
        InnerOutcome.raise e → e.isHTTP = true →
      Option.map Prod.snd
          (dispatch LogLevel.INFO ("r3") ("POST") ("/llm/msg") (fun _ => none)
            [] (InnerOutcome.raise ⟨false, 0, "", "boom"⟩) ("0.02")) =
        some ⟨e.status_code, RespBody.jsonDetail e.detail⟩) ∧
    (∀ e, InnerOutcome.raise (PyExn.mk false 0 ("") ("boom")) =
        InnerOutcome.raise e → e.isHTTP = false →
      Option.map Prod.snd
          (dispatch LogLevel.INFO ("r3") ("POST") ("/llm/msg") (fun _ => none)
            [] (InnerOutcome.raise ⟨false, 0, "", "boom"⟩) ("0.02")) =
        some ⟨500, RespBody.jsonDetail ("Internal Server Error")⟩) :=
  C4_dispatch_resolves LogLevel.INFO ("r3") ("POST") ("/llm/msg")
    (fun _ => none) [] (InnerOutcome.raise ⟨false, 0, "", "boom"⟩) ("0.02")
    (by decide)

/-- C5 counterexample: with configured threshold WARNING (a valid value of
the log-level enum) the first logging call of `dispatch` raises, so for a
handler answering 404 nothing at all is logged — in particular the captured
bodies are not logged at error severity although the status is outside
`{200, 201}`, contradicting the claimed equivalence. -/
theorem C5_counterexample :
    dispatch LogLevel.WARNING ("r4") ("GET") ("/llm/ten_msgs")
      (fun _ => some ("A")) [65] (InnerOutcome.ok 404 [66]) ("0.01") =
      none := rfl

/-- C5 (amended): provided the configured log threshold is one the
`TraceLogger` priority table defines (DEBUG, INFO or ERROR — WARNING
excluded, see the counterexample): (1) when the request body fails UTF-8
decoding, the only line the body-capture step can log is the fixed
placeholder; (2) the middleware's entire output is identical for any two
undecodable request bodies (the raw bytes never appear as text in any log
line); (3) on normal completion the captured request and response bodies
are logged at error severity iff the status code is outside `{200, 201}`. -/
theorem C5_body_capture (level : LogLevel) (rid method url : String)
    (decode : List Nat → Option String) (elapsed : String)
    (h : level ≠ LogLevel.WARNING) :
    (∀ b, b ≠ [] → decode b = none →
      ∃ lines, capture_body ⟨rid, level⟩ decode b = some (("", lines)) ∧
        ∀ line ∈ lines,
          line = ⟨LogLevel.INFO,
            (TraceLogger.mk rid level).create_string bodyPlaceholder⟩) ∧
    (∀ b1 b2 inner, b1 ≠ [] → b2 ≠ [] → decode b1 = none → decode b2 = none →
      dispatch level rid method url decode b1 inner elapsed =
        dispatch level rid method url decode b2 inner elapsed) ∧
    (∀ b dec status respBody rb logs resp,
      ((b = [] ∧ dec = "") ∨ (b ≠ [] ∧ decode b = some dec)) →
      decode respBody = some rb →
      dispatch level rid method url decode b (InnerOutcome.ok status respBody)
          elapsed = some (logs, resp) →
      ((⟨LogLevel.ERROR, (TraceLogger.mk rid level).create_string
            ("Request body: " ++ dec)⟩ ∈ logs ∧
        ⟨LogLevel.ERROR, (TraceLogger.mk rid level).create_string
            ("Response body: " ++ rb)⟩ ∈ logs) ↔
        ¬(status = 200 ∨ status = 201))) := by
  refine ⟨?_, ?_, ?_⟩
  · intro b hb hdec
    have hbe : b.isEmpty = false := by
      cases b
      · exact absurd rfl hb
      · rfl
    cases level
    case WARNING => exact absurd rfl h
    case DEBUG =>
      exact ⟨[⟨LogLevel.INFO,
          (TraceLogger.mk rid LogLevel.DEBUG).create_string bodyPlaceholder⟩],
        by simp [capture_body, hbe, hdec, TraceLogger.info,
          TraceLogger.should_log, levelPriority], by simp⟩
    case INFO =>
      exact ⟨[⟨LogLevel.INFO,
          (TraceLogger.mk rid LogLevel.INFO).create_string bodyPlaceholder⟩],
        by simp [capture_body, hbe, hdec, TraceLogger.info,
          TraceLogger.should_log, levelPriority], by simp⟩
    case ERROR =>
      exact ⟨[], by simp [capture_body, hbe, hdec, TraceLogger.info,
        TraceLogger.should_log, levelPriority], by simp⟩
  · intro b1 b2 inner hb1 hb2 hd1 hd2
    have hbe1 : b1.isEmpty = false := by
      cases b1
      · exact absurd rfl hb1
      · rfl
    have hbe2 : b2.isEmpty = false := by
      cases b2
      · exact absurd rfl hb2
      · rfl
    have hcap : capture_body ⟨rid, level⟩ decode b1 =
        capture_body ⟨rid, level⟩ decode b2 := by
      simp [capture_body, hbe1, hbe2, hd1, hd2]
    simp only [dispatch, hcap]
  · intro b dec status respBody rb logs resp hbd hr hD
    rcases hbd with ⟨rfl, rfl⟩ | ⟨hb, hdec⟩
    · have hbody : capture_body ⟨rid, level⟩ decode [] = some (("", [])) := by
        simp [capture_body]
      by_cases hs : status = 200 ∨ status = 201
      · rcases hs with rfl | rfl <;>
          cases level <;> first
            | exact absurd rfl h
            | (simp only [dispatch, hbody, general_response, TraceLogger.info,
                TraceLogger.error, TraceLogger.should_log, levelPriority,
                Option.bind_eq_bind, Option.some_bind, Option.pure_def,
                Option.some.injEq, Prod.mk.injEq] at hD
               simp at hD
               obtain ⟨rfl, rfl⟩ := hD
               simp)
      · have hs1 : status ≠ 200 := fun hx => hs (Or.inl hx)
        have hs2 : status ≠ 201 := fun hx => hs (Or.inr hx)
        cases level <;> first
          | exact absurd rfl h
          | (simp only [dispatch, hbody, general_response, TraceLogger.info,
              TraceLogger.error, TraceLogger.should_log, levelPriority,
              Option.bind_eq_bind, Option.some_bind, Option.pure_def,
              Option.some.injEq, Prod.mk.injEq] at hD
             simp [hs1, hs2, hr] at hD
             obtain ⟨rfl, rfl⟩ := hD
             simp [hs1, hs2])
    · have hbe : b.isEmpty = false := by
        cases b
        · exact absurd rfl hb
        · rfl
      have hbody : capture_body ⟨rid, level⟩ decode b =
          some ((dec, if level = LogLevel.ERROR then []
            else [⟨LogLevel.INFO,
              (TraceLogger.mk rid level).create_string
                ("Request body: " ++ dec)⟩])) := by
        cases level <;> first
          | exact absurd rfl h
          | simp [capture_body, hbe, hdec, TraceLogger.info,
              TraceLogger.should_log, levelPriority]
      by_cases hs : status = 200 ∨ status = 201
      · rcases hs with rfl | rfl <;>
          cases level <;> first
            | exact absurd rfl h
            | (simp only [dispatch, hbody, general_response, TraceLogger.info,
                TraceLogger.error, TraceLogger.should_log, levelPriority,
                Option.bind_eq_bind, Option.some_bind, Option.pure_def,
                Option.some.injEq, Prod.mk.injEq] at hD
               simp at hD
               obtain ⟨rfl, rfl⟩ := hD
               simp)
      · have hs1 : status ≠ 200 := fun hx => hs (Or.inl hx)
        have hs2 : status ≠ 201 := fun hx => hs (Or.inr hx)
        cases level <;> first
          | exact absurd rfl h
          | (simp only [dispatch, hbody, general_response, TraceLogger.info,
              TraceLogger.error, TraceLogger.should_log, levelPriority,
              Option.bind_eq_bind, Option.some_bind, Option.pure_def,
              Option.some.injEq, Prod.mk.injEq] at hD
             simp [hs1, hs2, hr] at hD
             obtain ⟨rfl, rfl⟩ := hD
             simp [hs1, hs2])

/-- Witness for C5: the amended theorem applied at threshold INFO with a
concrete decoding oracle. -/
theorem C5_witness :
    (∀ b, b ≠ [] → sampleDecode b = none →
      ∃ lines, capture_body ⟨"r5", LogLevel.INFO⟩ sampleDecode b =
          some (("", lines)) ∧
        ∀ line ∈ lines,
          line = ⟨LogLevel.INFO,
            (TraceLogger.mk ("r5") LogLevel.INFO).create_string
              bodyPlaceholder⟩) ∧
    (∀ b1 b2 inner, b1 ≠ [] → b2 ≠ [] →
      sampleDecode b1 = none → sampleDecode b2 = none →
      dispatch LogLevel.INFO ("r5") ("POST") ("/llm/msg") sampleDecode b1
          inner ("0.03") =
        dispatch LogLevel.INFO ("r5") ("POST") ("/llm/msg") sampleDecode b2
          inner ("0.03")) ∧
    (∀ b dec status respBody rb logs resp,
      ((b = [] ∧ dec = "") ∨ (b ≠ [] ∧ sampleDecode b = some dec)) →
      sampleDecode respBody = some rb →
      dispatch LogLevel.INFO ("r5") ("POST") ("/llm/msg") sampleDecode b
          (InnerOutcome.ok status respBody) ("0.03") = some (logs, resp) →
      ((⟨LogLevel.ERROR, (TraceLogger.mk ("r5") LogLevel.INFO).create_string
            ("Request body: " ++ dec)⟩ ∈ logs ∧
        ⟨LogLevel.ERROR, (TraceLogger.mk ("r5") LogLevel.INFO).create_string
            ("Response body: " ++ rb)⟩ ∈ logs) ↔
        ¬(status = 200 ∨ status = 201))) :=
  C5_body_capture LogLevel.INFO ("r5") ("POST") ("/llm/msg") sampleDecode
    ("0.03") (by decide)

theorem ordering_swap_swap (o : Ordering) : o.swap.swap = o := by
  cases o <;> rfl

theorem ordering_swap_eq_lt {o : Ordering} :
    o.swap = Ordering.lt ↔ o = Ordering.gt := by
  cases o <;> simp [Ordering.swap]

theorem ordering_swap_eq_gt {o : Ordering} :
    o.swap = Ordering.gt ↔ o = Ordering.lt := by
  cases o <;> simp [Ordering.swap]

theorem ordering_swap_eq_eq {o : Ordering} :
    o.swap = Ordering.eq ↔ o = Ordering.eq := by
  cases o <;> simp [Ordering.swap]

theorem cmpV_lt_iff {V : Type} [LinearOrder V] (a b : V) :
    cmpV a b = Ordering.lt ↔ a < b := by
  unfold cmpV
  split_ifs with h1 h2
  · simp [h1]
  · simp [h1]
  · simp [h1]

theorem cmpV_eq_iff {V : Type} [LinearOrder V] (a b : V) :
    cmpV a b = Ordering.eq ↔ a = b := by
  unfold cmpV
  split_ifs with h1 h2
  · simp [h1.ne]
  · simp [h2]
  · simp [h2]

theorem cmpV_swap {V : Type} [LinearOrder V] (a b : V) :
    cmpV a b = (cmpV b a).swap := by
  unfold cmpV
  rcases lt_trichotomy a b with h | rfl | h
  · simp [h, h.asymm, h.ne, h.ne', Ordering.swap]
  · simp [lt_irrefl, Ordering.swap]
  · simp [h, h.asymm, h.ne, h.ne', Ordering.swap]

theorem cmpOpt_eq_iff {V : Type} [LinearOrder V] (a b : Option V) :
    cmpOpt a b = Ordering.eq ↔ a = b := by
  cases a <;> cases b <;> simp [cmpOpt, cmpV_eq_iff]

theorem cmpOpt_swap {V : Type} [LinearOrder V] (a b : Option V) :
    cmpOpt a b = (cmpOpt b a).swap := by
  cases a <;> cases b <;> simp [cmpOpt, Ordering.swap]
  exact cmpV_swap _ _

theorem cmpOpt_lt_trans {V : Type} [LinearOrder V] {a b c : Option V}
    (h1 : cmpOpt a b = Ordering.lt) (h2 : cmpOpt b c = Ordering.lt) :
    cmpOpt a c = Ordering.lt := by
  cases a <;> cases b <;> cases c <;>
    simp [cmpOpt, cmpV_lt_iff] at h1 h2 ⊢
  exact h1.trans h2

theorem keyCmp_eq_iff {V : Type} [LinearOrder V] (d : Bool) (a b : Option V) :
    keyCmp d a b = Ordering.eq ↔ a = b := by
  cases d <;> simp [keyCmp, ordering_swap_eq_eq, cmpOpt_eq_iff]

theorem keyCmp_swap {V : Type} [LinearOrder V] (d : Bool) (a b : Option V) :
    keyCmp d a b = (keyCmp d b a).swap := by
  cases d <;> simp [keyCmp]
  · exact cmpOpt_swap _ _
  · rw [cmpOpt_swap a b]
    exact ordering_swap_swap _

theorem keyCmp_lt_trans {V : Type} [LinearOrder V] {d : Bool}
    {a b c : Option V}
    (h1 : keyCmp d a b = Ordering.lt) (h2 : keyCmp d b c = Ordering.lt) :
    keyCmp d a c = Ordering.lt := by
  cases d <;> simp [keyCmp] at h1 h2 ⊢
  · exact cmpOpt_lt_trans h1 h2
  · have hb1 : cmpOpt b a = Ordering.lt := by
      have hx := ordering_swap_eq_lt.mp h1
      rw [cmpOpt_swap a b] at hx
      exact ordering_swap_eq_gt.mp hx
    have hb2 : cmpOpt c b = Ordering.lt := by
      have hx := ordering_swap_eq_lt.mp h2
      rw [cmpOpt_swap b c] at hx
      exact ordering_swap_eq_gt.mp hx
    rw [ordering_swap_eq_lt, cmpOpt_swap a c, ordering_swap_eq_gt]
    exact cmpOpt_lt_trans hb2 hb1

theorem rowCmp_swap {V : Type} [LinearOrder V]
    (ordering : List (String × Bool)) (r1 r2 : Row V) :
    rowCmp ordering r1 r2 = (rowCmp ordering r2 r1).swap := by
  induction ordering with
  | nil => rfl
  | cons hd rest ih =>
    obtain ⟨f, d⟩ := hd
    simp only [rowCmp]
    rw [keyCmp_swap]
    cases hc : keyCmp d (Row.get r2 f) (Row.get r1 f) <;>
      simp [Ordering.swap, ih]

theorem rowLe_total {V : Type} [LinearOrder V]
    (ordering : List (String × Bool)) (r1 r2 : Row V) :
    (rowLe ordering r1 r2 || rowLe ordering r2 r1) = true := by
  rcases hc : rowCmp ordering r1 r2 with _ | _ | _
  · simp [rowLe, hc]
  · simp [rowLe, hc]
  · have h2 : rowCmp ordering r2 r1 = Ordering.lt := by
      have hs := rowCmp_swap ordering r1 r2
      rw [hc] at hs
      exact ordering_swap_eq_gt.mp hs.symm
    simp [rowLe, h2]

theorem rowLe_trans {V : Type} [LinearOrder V]
    (ordering : List (String × Bool)) (a b c : Row V)
    (h1 : rowLe ordering a b = true) (h2 : rowLe ordering b c = true) :
    rowLe ordering a c = true := by
  simp only [rowLe, decide_eq_true_eq] at h1 h2 ⊢
  induction ordering with
  | nil => simp [rowCmp]
  | cons hd rest ih =>
    obtain ⟨f, d⟩ := hd
    simp only [rowCmp] at h1 h2 ⊢
    cases hx : keyCmp d (Row.get a f) (Row.get b f) <;>
      cases hy : keyCmp d (Row.get b f) (Row.get c f) <;>
      rw [hx] at h1 <;> rw [hy] at h2
    · -- lt, lt
      rw [keyCmp_lt_trans hx hy]
      simp
    · -- lt, eq
      have he : Row.get b f = Row.get c f := (keyCmp_eq_iff d _ _).mp hy
      rw [he] at hx
      rw [hx]
      simp
    · -- lt, gt
      exact absurd rfl h2
    · -- eq, lt
      have he : Row.get a f = Row.get b f := (keyCmp_eq_iff d _ _).mp hx
      rw [← he] at hy
      rw [hy]
      simp
    · -- eq, eq
      have he1 : Row.get a f = Row.get b f := (keyCmp_eq_iff d _ _).mp hx
      have he2 : Row.get b f = Row.get c f := (keyCmp_eq_iff d _ _).mp hy
      have he3 : keyCmp d (Row.get a f) (Row.get c f) = Ordering.eq :=
        (keyCmp_eq_iff d _ _).mpr (he1.trans he2)
      rw [he3]
      exact ih h1 h2
    · -- eq, gt
      exact absurd rfl h2
    · -- gt, lt
      exact absurd rfl h1
    · -- gt, eq
      exact absurd rfl h1
    · -- gt, gt
      exact absurd rfl h1

theorem get_multi_eq_claimedRows {V : Type} [LinearOrder V]
    (db : List (Row V)) (order_by : Option (List (String × Bool)))
    (limit offset : Option Nat) (filter_by : List (String × V)) :
    get_multi db order_by limit offset filter_by =
      claimedRows db order_by limit offset filter_by := by
  cases order_by with
  | none =>
      rcases limit with _ | l <;> rcases offset with _ | o <;>
        simp [get_multi, buildQuery, execQuery, claimedRows]
  | some ob =>
      by_cases ho : ob.isEmpty <;>
        rcases limit with _ | l <;> rcases offset with _ | o <;>
        simp [get_multi, buildQuery, execQuery, claimedRows, ho]

theorem mem_claimedRows {V : Type} [LinearOrder V]
    {db : List (Row V)} {order_by : Option (List (String × Bool))}
    {limit offset : Option Nat} {filter_by : List (String × V)} {r : Row V}
    (hr : r ∈ claimedRows db order_by limit offset filter_by) :
    r ∈ db ∧ matches_filters filter_by r = true := by
  unfold claimedRows at hr
  have h1 : r ∈ (match order_by with
      | some o => if o.isEmpty then db.filter (matches_filters filter_by)
          else (db.filter (matches_filters filter_by)).mergeSort (rowLe o)
      | none => db.filter (matches_filters filter_by)) := by
    rcases limit with _ | l
    · exact List.drop_subset _ _ hr
    · exact List.drop_subset _ _ (List.take_subset _ _ hr)
  have h2 : r ∈ db.filter (matches_filters filter_by) := by
    rcases order_by with _ | o
    · exact h1
    · by_cases ho : o.isEmpty
      · simpa [ho] using h1
      · simp only [ho, if_false] at h1
        exact List.mem_mergeSort.mp h1
  simpa using List.mem_filter.mp h2

theorem claimedRows_pairwise {V : Type} [LinearOrder V]
    (db : List (Row V)) {o : List (String × Bool)}
    (limit offset : Option Nat) (filter_by : List (String × V))
    (ho : o ≠ []) :
    List.Pairwise (fun a b => rowLe o a b = true)
      (claimedRows db (some o) limit offset filter_by) := by
  have hms : List.Pairwise (fun a b => rowLe o a b = true)
      ((db.filter (matches_filters filter_by)).mergeSort (rowLe o)) := by
    have hp := List.sorted_mergeSort
      (fun a b c hab hbc => rowLe_trans o a b c hab hbc)
      (fun a b => rowLe_total o a b)
      (db.filter (matches_filters filter_by))
    exact hp
  have hoe : o.isEmpty = false := by
    cases o
    · exact absurd rfl ho
    · rfl
  unfold claimedRows
  rcases limit with _ | l <;> simp only [hoe, if_false]
  · exact List.Pairwise.sublist (List.drop_sublist _ _) hms
  · exact List.Pairwise.sublist
      ((List.take_sublist _ _).trans (List.drop_sublist _ _)) hms

/-- C8: `get_multi` returns exactly the rows matching every filter, sorted
by the ordering fields in the given sequence, with at most `limit` entries
starting at `offset` (the refinement against the spec-side `claimedRows`);
omitting all of filters, ordering and pagination returns everything, and an
empty result is a valid (non-error) outcome. -/
theorem C8_get_multi_semantics {V : Type} [LinearOrder V]
    (db : List (Row V)) (order_by : Option (List (String × Bool)))
    (limit offset : Option Nat) (filter_by : List (String × V)) :
    (∀ r ∈ get_multi db order_by limit offset filter_by,
        r ∈ db ∧ matches_filters filter_by r = true) ∧
    (∀ o, order_by = some o → o ≠ [] →
        List.Pairwise (fun a b => rowLe o a b = true)
          (get_multi db order_by limit offset filter_by)) ∧
    (∀ l, limit = some l →
        (get_multi db order_by limit offset filter_by).length ≤ l) ∧
    (order_by = none → limit = none → offset = none → filter_by = [] →
        get_multi db order_by limit offset filter_by = db) ∧
    get_multi db order_by limit offset filter_by =
      claimedRows db order_by limit offset filter_by := by
  refine ⟨?_, ?_, ?_, ?_, get_multi_eq_claimedRows db order_by limit offset filter_by⟩
  · intro r hr
    rw [get_multi_eq_claimedRows] at hr
    exact mem_claimedRows hr
  · intro o hoo ho
    subst hoo
    rw [get_multi_eq_claimedRows]
    exact claimedRows_pairwise db limit offset filter_by ho
  · intro l hl
    subst hl
    rw [get_multi_eq_claimedRows]
    unfold claimedRows
    exact List.length_take_le _ _
  · intro h1 h2 h3 h4
    subst h1
    subst h2
    subst h3
    subst h4
    simp [get_multi, buildQuery, execQuery, matches_filters, Row.get,
      List.filter_eq_self]

/-- C7 counterexample: with an empty result set and the custom message ""
supplied, the source's truthiness test `if _detail:` rejects the supplied
message and raises with the auto-generated one instead, so the error
message is not "exactly the supplied custom message". -/
theorem C7_counterexample :
    get_multi_or_404 ("Msg") ([] : List (Row Int)) none none none
        (some ("")) [] =
      Except.error ⟨404, "No Msg found"⟩ ∧
    ("" : String) ≠ "No Msg found" := by
  refine ⟨rfl, by decide⟩

/-- C7 (amended): `get_multi_or_404` fails exactly when `get_multi` would
return an empty sequence; in that case the failure is a 404 whose message
is exactly the supplied custom message when a non-empty one is given (an
empty custom message falls back to the auto-generated one, see the
counterexample), and otherwise the auto-generated message naming the
entity kind and the filters applied; a non-empty result is returned
unchanged. -/
theorem C7_get_multi_or_404 {V : Type} [LinearOrder V] [ToString V]
    (modelName : String) (db : List (Row V))
    (order_by : Option (List (String × Bool))) (limit offset : Option Nat)
    (custom_detail : Option String) (filter_by : List (String × V)) :
    ((∃ e, get_multi_or_404 modelName db order_by limit offset custom_detail
        filter_by = Except.error e) ↔
      get_multi db order_by limit offset filter_by = []) ∧
    (∀ e, get_multi_or_404 modelName db order_by limit offset custom_detail
        filter_by = Except.error e → e.status_code = 404) ∧
    (get_multi db order_by limit offset filter_by = [] →
      ∀ d, custom_detail = some d → d ≠ "" →
        get_multi_or_404 modelName db order_by limit offset custom_detail
          filter_by = Except.error ⟨404, d⟩) ∧
    (get_multi db order_by limit offset filter_by = [] →
      (custom_detail = none ∨ custom_detail = some ("")) →
        get_multi_or_404 modelName db order_by limit offset custom_detail
          filter_by =
          Except.error ⟨404, notFoundDetail modelName filter_by⟩) ∧
    (get_multi db order_by limit offset filter_by ≠ [] →
      get_multi_or_404 modelName db order_by limit offset custom_detail
        filter_by =
        Except.ok (get_multi db order_by limit offset filter_by)) := by
  by_cases hr : get_multi db order_by limit offset filter_by = []
  · have hre : (get_multi db order_by limit offset filter_by).isEmpty = true := by
      rw [hr]
      rfl
    refine ⟨⟨fun _ => hr, fun _ => ?_⟩, ?_, ?_, ?_, fun hne => absurd hr hne⟩
    · rcases custom_detail with _ | d
      · exact ⟨⟨404, notFoundDetail modelName filter_by⟩,
          by simp [get_multi_or_404, hre]⟩
      · exact ⟨⟨404, if d.isEmpty then notFoundDetail modelName filter_by
            else d⟩, by simp [get_multi_or_404, hre]⟩
    · intro e he
      simp only [get_multi_or_404, hre, if_true, Except.error.injEq] at he
      rw [← he]
    · intro _ d hd hne
      subst hd
      have hde : d.isEmpty = false := by
        cases hq : d.isEmpty
        · rfl
        · exact absurd ((String.isEmpty_iff d).mp hq) hne
      simp [get_multi_or_404, hre, hde]
    · intro _ hcd
      rcases hcd with rfl | rfl <;>
        simp [get_multi_or_404, hre,
          show ("" : String).isEmpty = true from by decide]
  · have hre : (get_multi db order_by limit offset filter_by).isEmpty = false := by
      rcases hq : get_multi db order_by limit offset filter_by with _ | ⟨a, l⟩
      · exact absurd hq hr
      · rfl
    refine ⟨⟨?_, fun hempty => absurd hempty hr⟩, ?_, fun hempty => absurd hempty hr,
      fun hempty => absurd hempty hr, fun _ => ?_⟩
    · rintro ⟨e, he⟩
      simp [get_multi_or_404, hre] at he
    · intro e he
      simp [get_multi_or_404, hre] at he
    · simp [get_multi_or_404, hre]

/-- C9: `create` returns a persisted entity with a non-null generated
identifier, the supplied field values intact and defaults populated; its
only side effect is staging one inserted row (the commit count is
untouched, so the id is available before any commit — the caller controls
the transaction boundary). -/
theorem C9_create_stages_one_row (s : Session) (obj_in : MsgSchema)
    (user_id : Option Nat) :
    (create s obj_in user_id).1.id = some s.next_id ∧
    (create s obj_in user_id).1.id ≠ none ∧
    (create s obj_in user_id).1.message = obj_in.message ∧
    (create s obj_in user_id).1.question = obj_in.question ∧
    (create s obj_in user_id).1.user_id = user_id ∧
    (create s obj_in user_id).1.date = some s.now ∧
    (create s obj_in user_id).1.date ≠ none ∧
    (create s obj_in user_id).2 =
      { s with rows := s.rows ++ [(create s obj_in user_id).1],
               events := s.events ++ [DBEvent.write (create s obj_in user_id).1],
               next_id := s.next_id + 1 } ∧
    (create s obj_in user_id).2.commits = s.commits := by
  refine ⟨rfl, by simp [create], rfl, rfl, rfl, rfl, by simp [create], rfl, rfl⟩

/-- C1: in live mode (mock flag off, key configured) with a successful
external call and successful writes, exactly two rows are written — the
question row (`question = true`) first, then the answer row
(`question = false`), both owned by the same user — followed by a single
commit, and the returned message is the external answer text. -/
theorem C1_live_success (question : String) (user_id : Nat) (s : Session)
    (key answer : String) :
    ∃ qrow arow,
      (ask_llm false (some key) question user_id s (Except.ok answer)
        none none).outcome = Except.ok answer ∧
      (ask_llm false (some key) question user_id s (Except.ok answer)
        none none).session.events =
        s.events ++ [DBEvent.write qrow, DBEvent.write arow, DBEvent.commit] ∧
      qrow.message = question ∧ qrow.question = true ∧
      qrow.user_id = some user_id ∧
      arow.message = answer ∧ arow.question = false ∧
      arow.user_id = some user_id ∧
      (ask_llm false (some key) question user_id s (Except.ok answer)
        none none).session.commits = s.commits + 1 := by
  refine ⟨⟨some s.next_id, question, some s.now, true, some user_id⟩,
    ⟨some (s.next_id + 1), answer, some s.now, false, some user_id⟩,
    rfl, ?_, rfl, rfl, rfl, rfl, rfl, rfl, rfl⟩
  simp [ask_llm, create, Session.do_commit]

/-- C2: when the external completion call or a persistence write inside
`ask_llm` raises, the raised error is uniform — status code equal to the
originating exception's `status_code` attribute when present and 500
otherwise, detail message `str(e)` — and zero commits occur (the commit
count is unchanged and no commit event is appended to the trace). -/
theorem C2_error_no_commit (question : String) (user_id : Nat) (s : Session)
    (key : String) (api_response : Except PyError String)
    (write_q_fails write_a_fails : Option PyError)
    (h : (∃ e, write_q_fails = some e) ∨
         (write_q_fails = none ∧ ∃ e, api_response = Except.error e) ∨
         (write_q_fails = none ∧ write_a_fails ≠ none ∧
            ∃ a, api_response = Except.ok a)) :
    (∀ e, write_q_fails = some e →
      (ask_llm false (some key) question user_id s api_response
        write_q_fails write_a_fails).outcome =
        Except.error ⟨e.status_code.getD 500, e.text⟩) ∧
    (write_q_fails = none → ∀ e, api_response = Except.error e →
      (ask_llm false (some key) question user_id s api_response
        write_q_fails write_a_fails).outcome =
        Except.error ⟨e.status_code.getD 500, e.text⟩) ∧
    (write_q_fails = none → ∀ a e, api_response = Except.ok a →
      write_a_fails = some e →
      (ask_llm false (some key) question user_id s api_response
        write_q_fails write_a_fails).outcome =
        Except.error ⟨e.status_code.getD 500, e.text⟩) ∧
    (ask_llm false (some key) question user_id s api_response
      write_q_fails write_a_fails).session.commits = s.commits ∧
    ((ask_llm false (some key) question user_id s api_response
        write_q_fails write_a_fails).session.events = s.events ∨
      ∃ row, (ask_llm false (some key) question user_id s api_response
        write_q_fails write_a_fails).session.events =
          s.events ++ [DBEvent.write row]) := by
  refine ⟨?_, ?_, ?_, ?_, ?_⟩
  · intro e he
    subst he
    rfl
  · intro hq e ha
    subst hq
    subst ha
    rfl
  · intro hq a e ha hw
    subst hq
    subst ha
    subst hw
    rfl
  · rcases h with ⟨e, rfl⟩ | ⟨rfl, e, rfl⟩ | ⟨rfl, hwa, a, rfl⟩
    · rfl
    · rfl
    · rcases hw : write_a_fails with _ | e2
      · exact absurd hw hwa
      · subst hw
        rfl
  · rcases h with ⟨e, rfl⟩ | ⟨rfl, e, rfl⟩ | ⟨rfl, hwa, a, rfl⟩
    · exact Or.inl rfl
    · exact Or.inr ⟨⟨some s.next_id, question, some s.now, true, some user_id⟩,
        by simp [ask_llm, create]⟩
    · rcases hw : write_a_fails with _ | e2
      · exact absurd hw hwa
      · subst hw
        exact Or.inr
          ⟨⟨some s.next_id, question, some s.now, true, some user_id⟩,
            by simp [ask_llm, create]⟩

/-- Witness for C2: a failing external call with status attribute 429 at a
concrete session. -/
theorem C2_witness :
    (∀ e, (none : Option PyError) = some e →
      (ask_llm false (some ("k")) ("q") 1 (Session.mk [] [] 0 0 0)
        (Except.error ⟨some 429, "rate limited"⟩) none none).outcome =
        Except.error ⟨e.status_code.getD 500, e.text⟩) ∧
    ((none : Option PyError) = none → ∀ e,
      (Except.error ⟨some 429, "rate limited"⟩ : Except PyError String) =
        Except.error e →
      (ask_llm false (some ("k")) ("q") 1 (Session.mk [] [] 0 0 0)
        (Except.error ⟨some 429, "rate limited"⟩) none none).outcome =
        Except.error ⟨e.status_code.getD 500, e.text⟩) ∧
    ((none : Option PyError) = none → ∀ a e,
      (Except.error ⟨some 429, "rate limited"⟩ : Except PyError String) =
        Except.ok a →
      (none : Option PyError) = some e →
      (ask_llm false (some ("k")) ("q") 1 (Session.mk [] [] 0 0 0)
        (Except.error ⟨some 429, "rate limited"⟩) none none).outcome =
        Except.error ⟨e.status_code.getD 500, e.text⟩) ∧
    (ask_llm false (some ("k")) ("q") 1 (Session.mk [] [] 0 0 0)
      (Except.error ⟨some 429, "rate limited"⟩) none none).session.commits =
      (Session.mk [] [] 0 0 0).commits ∧
    ((ask_llm false (some ("k")) ("q") 1 (Session.mk [] [] 0 0 0)
        (Except.error ⟨some 429, "rate limited"⟩) none none).session.events =
        (Session.mk [] [] 0 0 0).events ∨
      ∃ row, (ask_llm false (some ("k")) ("q") 1 (Session.mk [] [] 0 0 0)
        (Except.error ⟨some 429, "rate limited"⟩) none none).session.events =
          (Session.mk [] [] 0 0 0).events ++ [DBEvent.write row]) :=
  C2_error_no_commit ("q") 1 (Session.mk [] [] 0 0 0) ("k")
    (Except.error ⟨some 429, "rate limited"⟩) none none
    (Or.inr (Or.inl ⟨rfl, ⟨some 429, "rate limited"⟩, rfl⟩))

/-- C3: in test mode (mock flag on, or no key configured) `ask_llm`
returns the fixed canned answer, leaves the session untouched (no
persistence at all) and sleeps at least 1.5 seconds. -/
theorem C3_mock_mode (mock_mode : Bool) (api_key : Option String)
    (question : String) (user_id : Nat) (s : Session)
    (api_response : Except PyError String)
    (write_q_fails write_a_fails : Option PyError)
    (h : mock_mode = true ∨ api_key = none) :
    (ask_llm mock_mode api_key question user_id s api_response
      write_q_fails write_a_fails).outcome = Except.ok mockAnswer ∧
    (ask_llm mock_mode api_key question user_id s api_response
      write_q_fails write_a_fails).session = s ∧
    (ask_llm mock_mode api_key question user_id s api_response
      write_q_fails write_a_fails).slept ≥ 3 / 2 := by
  have hcond : (mock_mode || api_key.isNone) = true := by
    rcases h with rfl | rfl <;> simp
  refine ⟨?_, ?_, ?_⟩ <;> simp [ask_llm, hcond]

/-- Witness for C3: mock mode on at a concrete session; the canned string
comes back, the session is unchanged and 1.5 seconds are slept. -/
theorem C3_witness :
    (ask_llm true (some ("k")) ("q") 1 (Session.mk [] [] 5 7 2)
      (Except.ok ("ans")) none none).outcome = Except.ok mockAnswer ∧
    (ask_llm true (some ("k")) ("q") 1 (Session.mk [] [] 5 7 2)
      (Except.ok ("ans")) none none).session = Session.mk [] [] 5 7 2 ∧
    (ask_llm true (some ("k")) ("q") 1 (Session.mk [] [] 5 7 2)
      (Except.ok ("ans")) none none).slept ≥ 3 / 2 :=
  C3_mock_mode true (some ("k")) ("q") 1 (Session.mk [] [] 5 7 2)
    (Except.ok ("ans")) none none (Or.inl rfl)
